import Mathlib

/-!
A shallow embedding of the order-flow analytics engine of
src/backend/analytics_engine.py (class AnalyticsEngine) together with the
data model of src/backend/models.py, and proofs about the embedded code.

Conventions of the embedding:
* Python floats are modelled as exact rationals; the sigmoid and softmax
  layers, which apply the exponential function, live in the reals.
* Wall-clock time (datetime.utcnow in the source) is an explicit rational
  parameter, in seconds, passed to every operation that reads the clock.
* Python dicts keyed by rounded price are association lists in insertion
  order, matching dict iteration order.
* numpy mean over a possibly-empty list is modelled as an Option: none
  stands for the NaN that numpy returns on an empty input.
* Bounded deques are lists with an explicit truncation on append.
-/

set_option maxRecDepth 2000

namespace SignalBot

/-- AnalyticsEngine.EPSILON = 1e-10. -/
def EPSILON : ℚ := 1 / 10000000000

/-- Append to a deque with a maximal length, dropping the oldest entries
(collections.deque with maxlen). -/
def dequeAppend (maxlen : ℕ) (l : List α) (x : α) : List α :=
  let l2 := l ++ [x]
  l2.drop (l2.length - maxlen)

/-- Keep the last n entries of a list (Python slice l[-n:] for n positive). -/
def takeLast (n : ℕ) (l : List α) : List α :=
  l.drop (l.length - n)

/-- Python max over a nonempty list (0 as junk value for the empty list,
which the source never passes). -/
def listMax (l : List ℚ) : ℚ :=
  match l with
  | [] => 0
  | x :: xs => xs.foldl max x

/-- Python min over a nonempty list (0 as junk value for the empty list). -/
def listMin (l : List ℚ) : ℚ :=
  match l with
  | [] => 0
  | x :: xs => xs.foldl min x

/-- Arithmetic mean of a list; the source only applies it to nonempty lists
on the paths embedded with this function. -/
def listMean (l : List ℚ) : ℚ :=
  l.sum / l.length

/-- numpy mean. numpy returns NaN on an empty input, modelled as none. -/
def npMean (l : List ℚ) : Option ℚ :=
  if l.isEmpty then none else some (l.sum / l.length)

/-- numpy median: middle of the sorted values, average of the two middles
for an even length. -/
def npMedian (l : List ℚ) : ℚ :=
  let s := l.insertionSort (fun a b => a ≤ b)
  let n := s.length
  if n % 2 = 1 then s.getD (n / 2) 0
  else (s.getD (n / 2 - 1) 0 + s.getD (n / 2) 0) / 2

/-- Round half to even, as Python round does on ties. -/
def roundHalfEven (x : ℚ) : ℤ :=
  let n := ⌊x⌋
  let f := x - n
  if f < 1 / 2 then n
  else if 1 / 2 < f then n + 1
  else if Even n then n else n + 1

/-- Python round(price, 2): quantise a price to two decimal places. -/
def roundPrice (p : ℚ) : ℚ :=
  (roundHalfEven (p * 100) : ℚ) / 100

/-- numpy clip(x, -1, 1). -/
def ratClip (x : ℚ) : ℚ :=
  min 1 (max (-1) x)

/-- Logistic sigmoid 1 / (1 + exp(-z)). -/
noncomputable def sigmoid (z : ℝ) : ℝ :=
  1 / (1 + Real.exp (-z))

/-- The iceberg detector of the source compares sigmoid z with 0.5; the
embedding branches on the sign of the logit z instead, which this lemma
shows is the same test. -/
lemma half_lt_sigmoid_iff (z : ℝ) : 1 / 2 < sigmoid z ↔ 0 < z := by
  unfold sigmoid
  have hp : (0 : ℝ) < 1 + Real.exp (-z) := by
    have := Real.exp_pos (-z)
    linarith
  rw [div_lt_div_iff₀ (by norm_num) hp]
  constructor
  · intro h
    have hlt : Real.exp (-z) < 1 := by linarith
    have := Real.exp_lt_exp.mp (by rw [Real.exp_zero]; exact hlt : Real.exp (-z) < Real.exp 0)
    linarith
  · intro h
    have hlt : Real.exp (-z) < Real.exp 0 := Real.exp_lt_exp.mpr (by linarith)
    rw [Real.exp_zero] at hlt
    linarith

/-! ## Data model (src/backend/models.py) -/

/-- models.Trade restricted to the fields the engine reads; is_buyer_maker
true means the taker was a seller. -/
structure Trade where
  price : ℚ
  quantity : ℚ
  timestamp : ℚ
  is_buyer_maker : Bool
deriving DecidableEq

/-- models.OrderBookLevel (orders_count is never read by the engine). -/
structure OrderBookLevel where
  price : ℚ
  quantity : ℚ
deriving DecidableEq

/-- models.OrderBook restricted to the fields the engine reads: the two
sides and the derived spread scalar. -/
structure OrderBook where
  bids : List OrderBookLevel
  asks : List OrderBookLevel
  spread : ℚ := 0
deriving DecidableEq

/-- models.SignalWeights with its pydantic defaults. -/
structure SignalWeights where
  delta_weight : ℚ := 1 / 4
  absorption_weight : ℚ := 1 / 5
  iceberg_weight : ℚ := 3 / 20
  ofmbi_weight : ℚ := 1 / 5
  structure_weight : ℚ := 1 / 10
  spread_penalty_weight : ℚ := 1 / 10
deriving DecidableEq

/-- models.SignalType. -/
inductive SignalType where
  | buy
  | sell
  | no_trade
deriving DecidableEq

/-- models.MarketRegime. -/
inductive MarketRegime where
  | trend
  | range
  | spike
  | mean_revert
deriving DecidableEq

/-- One value of the level_hits dict: price -> hits count, cumulative
volume, trade timestamps. -/
structure LevelData where
  hits : ℕ
  volume : ℚ
  timestamps : List ℚ
deriving DecidableEq

/-! ## Engine state (AnalyticsEngine.__init__)

The ticks deque, the swing_highs/swing_lows attributes (never read: the
structure calculators recompute swings locally) and window_size /
micro_bar_ms (never read by any embedded path) are omitted. The iceberg
and TRP coefficient dicts are constants, defined below. -/

structure EngineState where
  trades : List Trade
  order_books : List OrderBook
  prices : List ℚ
  volumes : List ℚ
  cumulative_delta : ℚ
  total_buy_volume : ℚ
  total_sell_volume : ℚ
  level_hits : List (ℚ × LevelData)
  level_depth_history : List (ℚ × List ℚ)
  high_prices : List ℚ
  low_prices : List ℚ
  close_prices : List ℚ
  atr_values : List ℚ
  spreads : List ℚ
  median_spread : ℚ
  median_atr : ℚ
  weights : SignalWeights
deriving DecidableEq

/-- The state built by AnalyticsEngine.__init__. -/
def initialState : EngineState where
  trades := []
  order_books := []
  prices := []
  volumes := []
  cumulative_delta := 0
  total_buy_volume := 0
  total_sell_volume := 0
  level_hits := []
  level_depth_history := []
  high_prices := []
  low_prices := []
  close_prices := []
  atr_values := []
  spreads := []
  median_spread := 0
  median_atr := 0
  weights := {}

/-- Iceberg model coefficients a0, a1, a2, a3. -/
def iceberg_a0 : ℚ := -2
def iceberg_a1 : ℚ := 3 / 2
def iceberg_a2 : ℚ := 1
def iceberg_a3 : ℚ := 1 / 2

/-- TRP coefficients b0, b1, lambda. -/
def trp_b0 : ℚ := 0
def trp_b1 : ℚ := 2
def trp_lambda : ℚ := 2

/-! ## Mutating operations -/

/-- AnalyticsEngine.update_weights. -/
def update_weights (w : SignalWeights) (s : EngineState) : EngineState :=
  { s with weights := w }

/-- Record a trade hit in the level_hits dict: create the entry on first
sight of the price, then increment hits, add the volume, append the
timestamp. New keys go to the back, matching dict insertion order. -/
def addHit (m : List (ℚ × LevelData)) (p : ℚ) (qty ts : ℚ) : List (ℚ × LevelData) :=
  match m with
  | [] => [(p, ⟨1, qty, [ts]⟩)]
  | (q, d) :: rest =>
    if q = p then
      (q, ⟨d.hits + 1, d.volume + qty, d.timestamps ++ [ts]⟩) :: rest
    else
      (q, d) :: addHit rest p qty ts

/-- AnalyticsEngine._clean_old_level_data with the cutoff already computed:
drop timestamps at or before the cutoff, then remove keys whose timestamp
list became empty. -/
def cleanLevelHits (m : List (ℚ × LevelData)) (cutoff : ℚ) : List (ℚ × LevelData) :=
  (m.map (fun pd =>
      (pd.1, { pd.2 with timestamps := pd.2.timestamps.filter (fun t => cutoff < t) })))
    |>.filter (fun pd => !pd.2.timestamps.isEmpty)

/-- AnalyticsEngine.add_trade; now is the clock reading used by the
_clean_old_level_data call (max_age_seconds = 60). -/
def add_trade (tr : Trade) (now : ℚ) (s : EngineState) : EngineState :=
  let s1 := { s with
    trades := dequeAppend 10000 s.trades tr
    prices := dequeAppend 5000 s.prices tr.price
    volumes := dequeAppend 5000 s.volumes tr.quantity }
  let s2 :=
    if tr.is_buyer_maker then
      { s1 with
        cumulative_delta := s1.cumulative_delta - tr.quantity
        total_sell_volume := s1.total_sell_volume + tr.quantity }
    else
      { s1 with
        cumulative_delta := s1.cumulative_delta + tr.quantity
        total_buy_volume := s1.total_buy_volume + tr.quantity }
  let s3 := { s2 with
    level_hits := addHit s2.level_hits (roundPrice tr.price) tr.quantity tr.timestamp }
  { s3 with level_hits := cleanLevelHits s3.level_hits (now - 60) }

/-- Append a displayed size to the depth history of one price, keeping the
most recent 100 samples. -/
def updateDepth (m : List (ℚ × List ℚ)) (p : ℚ) (qty : ℚ) : List (ℚ × List ℚ) :=
  match m with
  | [] => [(p, [qty])]
  | (q, l) :: rest =>
    if q = p then
      let l2 := l ++ [qty]
      (q, if 100 < l2.length then l2.drop (l2.length - 100) else l2) :: rest
    else
      (q, l) :: updateDepth rest p qty

/-- AnalyticsEngine.add_order_book: append the book and its spread,
recompute the median spread once more than ten samples exist, then track
the displayed size of every level of both sides. -/
def add_order_book (ob : OrderBook) (s : EngineState) : EngineState :=
  let s1 := { s with
    order_books := dequeAppend 1000 s.order_books ob
    spreads := dequeAppend 1000 s.spreads ob.spread }
  let s2 :=
    if 10 < s1.spreads.length then { s1 with median_spread := npMedian s1.spreads }
    else s1
  let newDepth :=
    (ob.bids ++ ob.asks).foldl
      (fun m level => updateDepth m (roundPrice level.price) level.quantity)
      s2.level_depth_history
  { s2 with level_depth_history := newDepth }

/-- The true-range series of AnalyticsEngine._calculate_atr: for every
i >= 1, max(high-low, |high-prev close|, |low-prev close|). -/
def trueRanges (high low close : List ℚ) : List ℚ :=
  ((List.range high.length).drop 1).map (fun i =>
    max (high.getD i 0 - low.getD i 0)
      (max |high.getD i 0 - close.getD (i - 1) 0| |low.getD i 0 - close.getD (i - 1) 0|))

/-- AnalyticsEngine._calculate_atr: mean of the last atr_period = 14 true
ranges, appended to the bounded atr queue; the median ATR is recomputed
once more than ten ATR values exist. -/
def calculate_atr (s : EngineState) : EngineState :=
  if s.high_prices.length < 2 then s
  else
    let trs := trueRanges s.high_prices s.low_prices s.close_prices
    if trs.isEmpty then s
    else
      let atr := listMean (takeLast 14 trs)
      let s1 := { s with atr_values := dequeAppend 100 s.atr_values atr }
      if 10 < s1.atr_values.length then { s1 with median_atr := npMedian s1.atr_values }
      else s1

/-- AnalyticsEngine.add_candle. -/
def add_candle (high low close : ℚ) (s : EngineState) : EngineState :=
  calculate_atr { s with
    high_prices := dequeAppend 100 s.high_prices high
    low_prices := dequeAppend 100 s.low_prices low
    close_prices := dequeAppend 100 s.close_prices close }

/-- AnalyticsEngine.get_current_atr: the latest ATR, 0.01 if none exists. -/
def get_current_atr (s : EngineState) : ℚ :=
  match s.atr_values.getLast? with
  | some a => a
  | none => 1 / 100

/-! ## Metric calculators -/

/-- The trades newer than now minus window_ms milliseconds; computed by
both calculate_delta_metrics and calculate_momentum_metrics. -/
def recent_trades (window_ms : ℚ) (now : ℚ) (s : EngineState) : List Trade :=
  s.trades.filter (fun t => decide (now - window_ms / 1000 < t.timestamp))

/-- models.DeltaMetrics. -/
structure DeltaMetrics where
  raw_delta : ℚ := 0
  normalized_delta : ℚ := 0
  depth_aware_delta : ℚ := 0
  cumulative_delta : ℚ := 0
deriving DecidableEq

/-- AnalyticsEngine.calculate_delta_metrics (default window 1000 ms). -/
def calculate_delta_metrics (window_ms : ℚ) (now : ℚ) (s : EngineState) : DeltaMetrics :=
  let recent := recent_trades window_ms now s
  let v_buy := ((recent.filter (fun t => !t.is_buyer_maker)).map Trade.quantity).sum
  let v_sell := ((recent.filter (fun t => t.is_buyer_maker)).map Trade.quantity).sum
  let depths :=
    match s.order_books.getLast? with
    | some ob => (((ob.bids.take 5).map OrderBookLevel.quantity).sum,
                  ((ob.asks.take 5).map OrderBookLevel.quantity).sum)
    | none => (0, 0)
  let raw := v_buy - v_sell
  { raw_delta := raw
    normalized_delta := raw / (v_buy + v_sell + EPSILON)
    depth_aware_delta := raw / (depths.1 + depths.2 + EPSILON)
    cumulative_delta := s.cumulative_delta }

/-- One entry of the absorption_levels list (a dict in the source). -/
structure AbsorptionLevelInfo where
  price : ℚ
  side : String
  score : ℚ
  strength : ℚ
  volume_hit : ℚ
deriving DecidableEq

/-- models.AbsorptionMetrics. -/
structure AbsorptionMetrics where
  score : ℚ := 0
  strength : ℚ := 0
  bid_absorption : ℚ := 0
  ask_absorption : ℚ := 0
  absorption_levels : List AbsorptionLevelInfo := []
deriving DecidableEq

/-- Lookup in the level_hits dict. -/
def lookupHits (m : List (ℚ × LevelData)) (p : ℚ) : Option LevelData :=
  match m with
  | [] => none
  | (q, d) :: rest => if q = p then some d else lookupHits rest p

/-- Lookup in the level_depth_history dict. -/
def lookupDepth (m : List (ℚ × List ℚ)) (p : ℚ) : Option (List ℚ) :=
  match m with
  | [] => none
  | (q, l) :: rest => if q = p then some l else lookupDepth rest p

/-- Count of refill events in a depth series: indices i >= 2 with
depth[i-1] < depth[i-2] and depth[i] > depth[i-1]
(AnalyticsEngine._estimate_hidden_liquidity). -/
def countRefills (depths : List ℚ) : ℕ :=
  (((List.range depths.length).drop 2).filter (fun i =>
    decide (depths.getD (i - 1) 0 < depths.getD (i - 2) 0) &&
    decide (depths.getD (i - 1) 0 < depths.getD i 0))).length

/-- AnalyticsEngine._estimate_hidden_liquidity. -/
def estimate_hidden_liquidity (s : EngineState) (price : ℚ) : ℚ :=
  match lookupDepth s.level_depth_history price with
  | none => 0
  | some depths =>
    if depths.length < 3 then 0
    else
      match lookupHits s.level_hits price with
      | some d => d.volume * ((countRefills depths : ℚ) / (max (depths.length - 2) 1 : ℕ))
      | none => 0

/-- The per-level absorption record: present when the rounded price has
level_hits data and its score exceeds the 0.3 reporting threshold. -/
def absorptionLevel (s : EngineState) (side : String) (level : OrderBookLevel) :
    Option AbsorptionLevelInfo :=
  let price := roundPrice level.price
  match lookupHits s.level_hits price with
  | none => none
  | some d =>
    let v_hit := d.volume
    let l_vis := level.quantity
    let l_res := estimate_hidden_liquidity s price
    let score := v_hit / (v_hit + l_vis + EPSILON)
    let strength := (v_hit + l_res) / (v_hit + l_vis + l_res + EPSILON)
    if 3 / 10 < score then some ⟨price, side, score, strength, v_hit⟩ else none

/-- AnalyticsEngine.calculate_absorption_metrics. The window_ms parameter
of the source is never read in the body and is omitted. -/
def calculate_absorption_metrics (s : EngineState) : AbsorptionMetrics :=
  match s.order_books.getLast? with
  | none => {}
  | some ob =>
    let bidLevels := (ob.bids.take 10).filterMap (absorptionLevel s "bid")
    let askLevels := (ob.asks.take 10).filterMap (absorptionLevel s "ask")
    let allLevels := bidLevels ++ askLevels
    let overall_score :=
      if allLevels.isEmpty then 0 else listMean (allLevels.map AbsorptionLevelInfo.score)
    let overall_strength :=
      if allLevels.isEmpty then 0 else listMean (allLevels.map AbsorptionLevelInfo.strength)
    { score := overall_score
      strength := overall_strength
      bid_absorption := (bidLevels.map AbsorptionLevelInfo.strength).foldl max 0
      ask_absorption := (askLevels.map AbsorptionLevelInfo.strength).foldl max 0
      absorption_levels := allLevels }

/-- AnalyticsEngine._calculate_refill_intensity: total refill magnitude
over total consumption magnitude of the first differences. -/
def calculate_refill_intensity (s : EngineState) (price : ℚ) : ℚ :=
  match lookupDepth s.level_depth_history price with
  | none => 0
  | some depths =>
    if depths.length < 3 then 0
    else
      let diffs := ((List.range depths.length).drop 1).map (fun i =>
        depths.getD i 0 - depths.getD (i - 1) 0)
      let refill := (diffs.filter (fun d => decide (0 < d))).sum
      let consume := ((diffs.filter (fun d => !decide (0 < d))).map (fun d => |d|)).sum
      refill / (consume + EPSILON)

/-- AnalyticsEngine._calculate_persistence: min(1, span of hit timestamps
times hit count, normalised to 60 seconds). -/
def calculate_persistence (s : EngineState) (price : ℚ) : ℚ :=
  match lookupHits s.level_hits price with
  | none => 0
  | some d =>
    if d.timestamps.length < 2 then 0
    else
      let duration := d.timestamps.getLastD 0 - d.timestamps.headD 0
      min 1 (duration * d.timestamps.length / 60)

/-- One entry of the detected iceberg list. The source stores the sigmoid
probability; the embedding records the logit z, from which the probability
is sigmoid z, so that the record stays rational. -/
structure IcebergLevelInfo where
  price : ℚ
  side : String
  z : ℚ
  fdr : ℚ
  estimated_hidden : ℚ
deriving DecidableEq

/-- models.IcebergMetrics. The pydantic defaults put 0.0 in
refill_intensity and persistence_score; the computed branch takes numpy
means that are NaN (none) when the latest book has no levels. -/
structure IcebergMetrics where
  probability : ℝ := 0
  fill_to_display_ratio : ℚ := 0
  refill_intensity : Option ℚ := some 0
  persistence_score : Option ℚ := some 0
  detected_levels : List IcebergLevelInfo := []

/-- Fill-to-display ratio of one book level: executed volume at the
rounded price over displayed size plus epsilon. -/
def levelFdr (s : EngineState) (level : OrderBookLevel) : ℚ :=
  let v_exec :=
    match lookupHits s.level_hits (roundPrice level.price) with
    | some d => d.volume
    | none => 0
  v_exec / (level.quantity + EPSILON)

/-- The iceberg logit of one book level:
z = a0 + a1 * fdr + a2 * refill + a3 * persistence. -/
def icebergZ (s : EngineState) (level : OrderBookLevel) : ℚ :=
  let price := roundPrice level.price
  iceberg_a0 + iceberg_a1 * levelFdr s level +
    iceberg_a2 * calculate_refill_intensity s price +
    iceberg_a3 * calculate_persistence s price

/-- The detected-iceberg record of one level, present when the sigmoid
probability exceeds 0.5, which holds exactly when the logit is positive. -/
def icebergLevel (s : EngineState) (side : String) (level : OrderBookLevel) :
    Option IcebergLevelInfo :=
  let price := roundPrice level.price
  let v_exec :=
    match lookupHits s.level_hits price with
    | some d => d.volume
    | none => 0
  let z := icebergZ s level
  if 0 < z then
    some ⟨price, side, z, levelFdr s level,
      if level.quantity < v_exec then v_exec - level.quantity else 0⟩
  else none

/-- AnalyticsEngine.calculate_iceberg_metrics. The local ip_simple value
of the source is computed but never returned and is omitted. In the
source the returned fill_to_display_ratio reuses the fdr variable left
over from the last loop iteration when any iceberg was detected. -/
noncomputable def calculate_iceberg_metrics (s : EngineState) : IcebergMetrics :=
  match s.order_books.getLast? with
  | none => {}
  | some ob =>
    let detected := ((ob.bids.take 10).filterMap (icebergLevel s "bid")) ++
      ((ob.asks.take 10).filterMap (icebergLevel s "ask"))
    let max_probability :=
      (detected.map (fun i => sigmoid (i.z : ℝ))).foldl max 0
    let lastLevel := (ob.bids.take 10 ++ ob.asks.take 10).getLast?
    let fdrLast :=
      match lastLevel with
      | some level => levelFdr s level
      | none => 0
    let top5 := ob.bids.take 5 ++ ob.asks.take 5
    { probability := max_probability
      fill_to_display_ratio := if detected.isEmpty then 0 else fdrLast
      refill_intensity :=
        npMean (top5.map (fun l => calculate_refill_intensity s (roundPrice l.price)))
      persistence_score :=
        npMean (top5.map (fun l => calculate_persistence s (roundPrice l.price)))
      detected_levels := detected }

/-- models.MomentumMetrics. -/
structure MomentumMetrics where
  ofmbi : ℚ := 0
  ofmbi_vol_normalized : ℚ := 0
  tape_speed : ℚ := 0
  volume_velocity : ℚ := 0
deriving DecidableEq

/-- AnalyticsEngine.calculate_momentum_metrics (default window 1000 ms).
Tape speed and volume velocity divide by window_ms/1000 with no epsilon,
guarded by window_ms positive and by the recent list being nonempty. -/
def calculate_momentum_metrics (window_ms : ℚ) (now : ℚ) (s : EngineState) : MomentumMetrics :=
  let delta := calculate_delta_metrics window_ms now s
  let recent := recent_trades window_ms now s
  let tape_speed := if 0 < window_ms then (recent.length : ℚ) / (window_ms / 1000) else 0
  let volume_velocity :=
    if recent.isEmpty then 0 else (recent.map Trade.quantity).sum / (window_ms / 1000)
  let fallback := if 0 < s.median_spread then s.median_spread else 1 / 100
  let spread :=
    match s.order_books.getLast? with
    | some ob => ob.spread
    | none => fallback
  let atr := get_current_atr s
  { ofmbi := delta.normalized_delta * tape_speed / (spread + EPSILON)
    ofmbi_vol_normalized := delta.normalized_delta * tape_speed / (spread * atr + EPSILON)
    tape_speed := tape_speed
    volume_velocity := volume_velocity }

/-- AnalyticsEngine._detect_swing_highs with lookback = 5: indices i in
[5, len-5) whose price equals the maximum of the centred 11-wide window. -/
def detect_swing_highs (prices : List ℚ) : List ℚ :=
  (((List.range prices.length).drop 5).filter (fun i => decide (i + 5 < prices.length))).filterMap
    (fun i =>
      if prices.getD i 0 = listMax ((prices.drop (i - 5)).take 11) then some (prices.getD i 0)
      else none)

/-- AnalyticsEngine._detect_swing_lows, symmetrically with the minimum. -/
def detect_swing_lows (prices : List ℚ) : List ℚ :=
  (((List.range prices.length).drop 5).filter (fun i => decide (i + 5 < prices.length))).filterMap
    (fun i =>
      if prices.getD i 0 = listMin ((prices.drop (i - 5)).take 11) then some (prices.getD i 0)
      else none)

/-- Second-to-last element of a list, junk 0 when shorter than 2. -/
def penultD (l : List ℚ) : ℚ :=
  l.getD (l.length - 2) 0

/-- AnalyticsEngine._determine_trend: up on a higher high and higher low,
down on a lower high and lower low, neutral otherwise. -/
def determine_trend (highs lows : List ℚ) : String :=
  if highs.length < 2 ∨ lows.length < 2 then "neutral"
  else if penultD highs < highs.getLastD 0 ∧ penultD lows < lows.getLastD 0 then "up"
  else if highs.getLastD 0 < penultD highs ∧ lows.getLastD 0 < penultD lows then "down"
  else "neutral"

/-- AnalyticsEngine._detect_regime. The source compares the standard
deviation and the correlation coefficient, both of which involve square
roots; the embedding states the equivalent comparisons of their squares
(both sides of each original comparison are of known sign on the branch
where it is taken), and a comparison against the NaN produced by a zero
variance in np.corrcoef is false, encoded by the positivity conjunct on
the variance product. -/
def detect_regime (prices : List ℚ) : MarketRegime :=
  if prices.length < 20 then .range
  else
    let returns := ((List.range prices.length).drop 1).map (fun i =>
      (prices.getD i 0 - prices.getD (i - 1) 0) / prices.getD (i - 1) 0)
    let n : ℚ := returns.length
    let mu := returns.sum / n
    let variance := (returns.map (fun r => (r - mu) ^ 2)).sum / n
    let mu_abs := (returns.map (fun r => |r|)).sum / n
    let xs := returns.dropLast
    let ys := returns.drop 1
    let m : ℚ := xs.length
    let mux := xs.sum / m
    let muy := ys.sum / m
    let cov := ((xs.zip ys).map (fun p => (p.1 - mux) * (p.2 - muy))).sum / m
    let vx := (xs.map (fun r => (r - mux) ^ 2)).sum / m
    let vy := (ys.map (fun r => (r - muy) ^ 2)).sum / m
    if 9 * mu_abs ^ 2 < variance then .spike
    else if 1 < returns.length ∧ 0 < vx * vy ∧ (9 / 100) * (vx * vy) < cov ^ 2 then .trend
    else if 1 < returns.length ∧ 0 < vx * vy ∧ cov < 0 ∧ (1 / 25) * (vx * vy) < cov ^ 2 then
      .mean_revert
    else .range

/-- AnalyticsEngine._detect_structure_breaks. The source guards each
comparison with a chained conditional expression whose else-branch is the
bare last swing value, so that with fewer than the required swings Python
tests the truthiness of that float: the branch fires exactly when the
last swing is nonzero, regardless of the current price. -/
def detect_structure_breaks (prices highs lows : List ℚ) (trend : String) : Bool × Bool :=
  if prices.length < 3 then (false, false)
  else
    let p := prices.getLastD 0
    let bos : Bool :=
      if trend = "up" ∧ highs ≠ [] then
        if 3 ≤ highs.length then decide (listMax (takeLast 3 highs) < p)
        else decide (highs.getLastD 0 ≠ 0)
      else if trend = "down" ∧ lows ≠ [] then
        if 3 ≤ lows.length then decide (p < listMin (takeLast 3 lows))
        else decide (lows.getLastD 0 ≠ 0)
      else false
    let choch : Bool :=
      if trend = "up" ∧ lows ≠ [] then
        if 2 ≤ lows.length then decide (p < listMin (takeLast 2 lows))
        else decide (lows.getLastD 0 ≠ 0)
      else if trend = "down" ∧ highs ≠ [] then
        if 2 ≤ highs.length then decide (listMax (takeLast 2 highs) < p)
        else decide (highs.getLastD 0 ≠ 0)
      else false
    (bos, choch)

/-- The nearest trendline level: first strict minimiser of the distance to
the current price over the candidate levels, as the Python running-minimum
loop computes it. -/
def nearestLevel (current : ℚ) (levels : List ℚ) : Option ℚ :=
  levels.foldl
    (fun acc level =>
      match acc with
      | none => some level
      | some best => if |current - level| < |current - best| then some level else some best)
    none

/-- AnalyticsEngine._calculate_trendline_rejection:
trp_dist = 1 - min(1, dist / (lambda * atr + eps)) scaled by the sigmoid
of b0 + b1 * rejection flow; the rejection flow is the normalized delta,
negated when the price sits above the nearest level. -/
noncomputable def calculate_trendline_rejection
    (prices highs lows : List ℚ) (now : ℚ) (s : EngineState) : ℝ :=
  if prices.isEmpty then 0
  else
    let current := prices.getLastD 0
    let atr := get_current_atr s
    match nearestLevel current (takeLast 3 highs ++ takeLast 3 lows) with
    | none => 0
    | some level =>
      let distance_normalized := |current - level| / (trp_lambda * atr + EPSILON)
      let trp_dist := 1 - min 1 distance_normalized
      let delta := (calculate_delta_metrics 1000 now s).normalized_delta
      let rej_flow := if level < current then -delta else delta
      let z := trp_b0 + trp_b1 * rej_flow
      (trp_dist : ℝ) * sigmoid (z : ℝ)

/-- models.StructureMetrics with its pydantic defaults. -/
structure StructureMetrics where
  regime : MarketRegime := .range
  trend_direction : String := "neutral"
  swing_highs : List ℚ := []
  swing_lows : List ℚ := []
  support_levels : List ℚ := []
  resistance_levels : List ℚ := []
  bos_detected : Bool := false
  choch_detected : Bool := false
  trendline_rejection_probability : ℝ := 0

/-- AnalyticsEngine.calculate_structure_metrics: all defaults below 20
recorded prices, otherwise swings, trend, regime, structure breaks and
trendline rejection over the current price series. -/
noncomputable def calculate_structure_metrics (now : ℚ) (s : EngineState) : StructureMetrics :=
  if s.prices.length < 20 then {}
  else
    let prices := s.prices
    let highs := detect_swing_highs prices
    let lows := detect_swing_lows prices
    let trend := determine_trend highs lows
    let breaks := detect_structure_breaks prices highs lows trend
    { regime := detect_regime prices
      trend_direction := trend
      swing_highs := takeLast 5 highs
      swing_lows := takeLast 5 lows
      support_levels := takeLast 3 lows
      resistance_levels := takeLast 3 highs
      bos_detected := breaks.1
      choch_detected := breaks.2
      trendline_rejection_probability :=
        calculate_trendline_rejection prices highs lows now s }

/-! ## Composite signal generation

The source also computes liquidity metrics inside generate_signal; the
value is never read afterwards (it contributes to no signal field), so the
embedding omits the call. -/

/-- models.SignalBreakdown. Five contributions stay rational; the iceberg
contribution carries the real-valued sigmoid probability. -/
structure SignalBreakdown where
  delta_contribution : ℚ := 0
  absorption_contribution : ℚ := 0
  iceberg_contribution : ℝ := 0
  momentum_contribution : ℚ := 0
  structure_contribution : ℚ := 0
  spread_penalty : ℚ := 0

/-- models.TradingSignal restricted to the fields generate_signal fills.
The timestamp field is the clock reading at construction (a pydantic
default factory calling utcnow); the random uuid id field is outside the
deterministic embedding. The reason field keeps the fragment structure of
the source but elides the interpolated numerals, whose float formatting is
host-specific. -/
structure TradingSignal where
  symbol : String
  timestamp : ℚ
  signal_type : SignalType
  hfss_score : ℝ
  probability_buy : ℝ
  probability_sell : ℝ
  probability_no_trade : ℝ
  confidence : ℝ
  breakdown : SignalBreakdown
  reason : String
  price_at_signal : ℚ

/-- The three-way softmax of generate_signal over
(scaled, -scaled, 0). -/
noncomputable def softmax3 (scaled : ℝ) : ℝ × ℝ × ℝ :=
  let exp_buy := Real.exp scaled
  let exp_sell := Real.exp (-scaled)
  let exp_none := Real.exp 0
  let total := exp_buy + exp_sell + exp_none
  (exp_buy / total, exp_sell / total, exp_none / total)

open Classical in
/-- The decision rule of generate_signal: buy when p_buy exceeds 0.45 and
p_sell, sell symmetrically, otherwise no_trade; the confidence is the
probability of the chosen class. -/
noncomputable def chooseSignal (p_buy p_sell p_none : ℝ) : SignalType × ℝ :=
  if 9 / 20 < p_buy ∧ p_sell < p_buy then (.buy, p_buy)
  else if 9 / 20 < p_sell ∧ p_buy < p_sell then (.sell, p_sell)
  else (.no_trade, p_none)

/-- The structure factor of generate_signal: 0.5 signed by the trend,
0.8 on a break of structure, halved and inverted on a change of
character. -/
def structureFactor (st : StructureMetrics) : ℚ :=
  (if st.trend_direction = "up" then (if st.bos_detected then 4 / 5 else 1 / 2)
   else if st.trend_direction = "down" then (if st.bos_detected then -(4 / 5) else -(1 / 2))
   else 0) * (if st.choch_detected then -(1 / 2) else 1)

/-- The spread penalty of generate_signal: present only with a book and a
positive median spread, the spread ratio times the ATR ratio (only the
latter carries the epsilon), clamped to 1. -/
def spreadPenalty (s : EngineState) : ℚ :=
  match s.order_books.getLast? with
  | none => 0
  | some ob =>
    if 0 < s.median_spread then
      min ((ob.spread / s.median_spread) * (get_current_atr s / (s.median_atr + EPSILON))) 1
    else 0

/-- The tail of generate_signal: softmax over the scaled score, the
decision rule, and the construction of the TradingSignal record. -/
noncomputable def assembleSignal (symbol : String) (now : ℚ) (hfss : ℝ)
    (bd : SignalBreakdown) (reason : String) (price : ℚ) : TradingSignal :=
  let probs := softmax3 (hfss * 3)
  let choice := chooseSignal probs.1 probs.2.1 probs.2.2
  { symbol := symbol
    timestamp := now
    signal_type := choice.1
    hfss_score := hfss
    probability_buy := probs.1
    probability_sell := probs.2.1
    probability_no_trade := probs.2.2
    confidence := choice.2
    breakdown := bd
    reason := reason
    price_at_signal := price }

open Classical in
/-- AnalyticsEngine.generate_signal; now is the clock reading of the call,
entering through the windowed metrics and the signal timestamp. The
source sums the six weighted contributions in one expression; here the
five rational ones are summed in the rationals and the iceberg term,
which carries the real-valued sigmoid probability, is added in the reals
- the same sum by commutativity of addition. -/
noncomputable def generate_signal (symbol : String) (now : ℚ) (s : EngineState) : TradingSignal :=
  let delta := calculate_delta_metrics 1000 now s
  let absorption := calculate_absorption_metrics s
  let iceberg := calculate_iceberg_metrics s
  let momentum := calculate_momentum_metrics 1000 now s
  let structMetrics := calculate_structure_metrics now s
  let delta_normalized := ratClip delta.normalized_delta
  let absorption_normalized := ratClip (absorption.bid_absorption - absorption.ask_absorption)
  let iceberg_normalized : ℝ := iceberg.probability * (1 / 2)
  let ofmbi_normalized := ratClip (momentum.ofmbi / 100)
  let structure_factor := structureFactor structMetrics
  let spread_penalty := spreadPenalty s
  let w := s.weights
  let hfssRat := w.delta_weight * delta_normalized +
    w.absorption_weight * absorption_normalized +
    w.ofmbi_weight * ofmbi_normalized +
    w.structure_weight * structure_factor -
    w.spread_penalty_weight * spread_penalty
  let hfss : ℝ := (hfssRat : ℝ) + (w.iceberg_weight : ℝ) * iceberg_normalized
  let fragments :=
    (if 3 / 10 < |delta_normalized| then ["Delta"] else []) ++
    (if 3 / 10 < absorption.strength then ["Absorption"] else []) ++
    (if (1 / 2 : ℝ) < iceberg.probability then ["Iceberg"] else []) ++
    (if 10 < |momentum.ofmbi| then ["Momentum"] else []) ++
    (if structMetrics.bos_detected then ["Structure: Break of structure"] else []) ++
    (if structMetrics.choch_detected then ["Structure: Change of character"] else [])
  assembleSignal symbol now hfss
    { delta_contribution := w.delta_weight * delta_normalized
      absorption_contribution := w.absorption_weight * absorption_normalized
      iceberg_contribution := (w.iceberg_weight : ℝ) * iceberg_normalized
      momentum_contribution := w.ofmbi_weight * ofmbi_normalized
      structure_contribution := w.structure_weight * structure_factor
      spread_penalty := w.spread_penalty_weight * spread_penalty }
    (if fragments.isEmpty then "No significant signals"
     else String.intercalate " | " fragments)
    (s.prices.getLastD 0)

/-! ## Reachable states -/

/-- One call of the mutating interface of the engine; trade events carry
the clock reading of the call. -/
inductive Event where
  | trade (tr : Trade) (now : ℚ)
  | book (ob : OrderBook)
  | candle (high low close : ℚ)
  | setWeights (w : SignalWeights)

/-- Apply one mutating call to the state. -/
def applyEvent (s : EngineState) (e : Event) : EngineState :=
  match e with
  | .trade tr now => add_trade tr now s
  | .book ob => add_order_book ob s
  | .candle high low close => add_candle high low close s
  | .setWeights w => update_weights w s

/-- The state reached from a fresh engine by a sequence of mutating
calls. -/
def runEvents (evs : List Event) : EngineState :=
  evs.foldl applyEvent initialState

/-- The delta bookkeeping invariant of the engine. -/
def deltaInv (s : EngineState) : Prop :=
  s.cumulative_delta = s.total_buy_volume - s.total_sell_volume

lemma deltaInv_add_trade (tr : Trade) (now : ℚ) (s : EngineState)
    (h : deltaInv s) : deltaInv (add_trade tr now s) := by
  unfold deltaInv at h ⊢
  unfold add_trade
  dsimp only
  by_cases hb : tr.is_buyer_maker <;>
    simp only [hb, if_true, Bool.false_eq_true, if_false] <;> linarith

lemma deltaInv_add_order_book (ob : OrderBook) (s : EngineState)
    (h : deltaInv s) : deltaInv (add_order_book ob s) := by
  unfold deltaInv at h ⊢
  unfold add_order_book
  dsimp only
  split <;> exact h

lemma calculate_atr_proj (s : EngineState) :
    (calculate_atr s).cumulative_delta = s.cumulative_delta ∧
    (calculate_atr s).total_buy_volume = s.total_buy_volume ∧
    (calculate_atr s).total_sell_volume = s.total_sell_volume := by
  unfold calculate_atr
  dsimp only
  split
  · exact ⟨rfl, rfl, rfl⟩
  · split
    · exact ⟨rfl, rfl, rfl⟩
    · split <;> exact ⟨rfl, rfl, rfl⟩

lemma deltaInv_add_candle (high low close : ℚ) (s : EngineState)
    (h : deltaInv s) : deltaInv (add_candle high low close s) := by
  unfold deltaInv add_candle
  obtain ⟨h1, h2, h3⟩ := calculate_atr_proj
    { s with
      high_prices := dequeAppend 100 s.high_prices high
      low_prices := dequeAppend 100 s.low_prices low
      close_prices := dequeAppend 100 s.close_prices close }
  rw [h1, h2, h3]
  exact h

lemma deltaInv_applyEvent (s : EngineState) (e : Event)
    (h : deltaInv s) : deltaInv (applyEvent s e) := by
  cases e with
  | trade tr now => exact deltaInv_add_trade tr now s h
  | book ob => exact deltaInv_add_order_book ob s h
  | candle high low close => exact deltaInv_add_candle high low close s h
  | setWeights w => exact h

/-- C1: in every state reachable by any sequence of add_trade,
add_order_book, add_candle and update_weights calls, cumulative_delta
equals total_buy_volume minus total_sell_volume. -/
theorem c1_cumulative_delta_invariant (evs : List Event) :
    (runEvents evs).cumulative_delta =
      (runEvents evs).total_buy_volume - (runEvents evs).total_sell_volume := by
  suffices h : ∀ s, deltaInv s → deltaInv (evs.foldl applyEvent s) by
    have h0 : deltaInv initialState := by
      unfold deltaInv initialState
      norm_num
    exact h initialState h0
  induction evs with
  | nil => exact fun s hs => hs
  | cons e rest ih => exact fun s hs => ih (applyEvent s e) (deltaInv_applyEvent s e hs)

/-- C10: with fewer than 20 recorded trade prices, the structure metrics
are all defaults, whatever else the state holds: regime range, neutral
trend, empty swing and level lists, no BOS, no CHOCH, zero trendline
rejection probability. -/
theorem c10_structure_defaults (now : ℚ) (s : EngineState)
    (h : s.prices.length < 20) :
    (calculate_structure_metrics now s).regime = MarketRegime.range ∧
    (calculate_structure_metrics now s).trend_direction = "neutral" ∧
    (calculate_structure_metrics now s).swing_highs = [] ∧
    (calculate_structure_metrics now s).swing_lows = [] ∧
    (calculate_structure_metrics now s).support_levels = [] ∧
    (calculate_structure_metrics now s).resistance_levels = [] ∧
    (calculate_structure_metrics now s).bos_detected = false ∧
    (calculate_structure_metrics now s).choch_detected = false ∧
    (calculate_structure_metrics now s).trendline_rejection_probability = 0 := by
  unfold calculate_structure_metrics
  rw [if_pos h]
  exact ⟨rfl, rfl, rfl, rfl, rfl, rfl, rfl, rfl, rfl⟩

/-- Witness for C10: the fresh engine has no prices, and its structure
metrics are the defaults. -/
theorem c10_structure_defaults_witness :
    initialState.prices.length < 20 ∧
    (calculate_structure_metrics 0 initialState).regime = MarketRegime.range ∧
    (calculate_structure_metrics 0 initialState).bos_detected = false := by
  have h := c10_structure_defaults 0 initialState (by decide)
  exact ⟨by decide, h.1, h.2.2.2.2.2.2.1⟩

/-- A weight configuration with a negative component. -/
def negWeights : SignalWeights :=
  { delta_weight := -1 }

/-- C6 counterexample: update_weights with a negative delta weight is not
rejected; it changes the active weights of the engine. -/
theorem c6_counterexample :
    negWeights.delta_weight < 0 ∧
    (update_weights negWeights initialState).weights ≠ initialState.weights ∧
    (update_weights negWeights initialState).weights = negWeights := by
  refine ⟨by norm_num [negWeights], ?_, rfl⟩
  intro h
  have hd := congrArg SignalWeights.delta_weight h
  simp only [update_weights, negWeights, initialState] at hd
  norm_num at hd

/-- C6 (amended): update_weights performs no validation at all: any
weights record, negative components included, replaces the active one and
nothing else changes; the weights flow directly into the next
generate_signal call, whose delta contribution is the new delta weight
times the clipped normalized delta of the unchanged metrics. -/
theorem c6_amended (w : SignalWeights) (s : EngineState) (symbol : String) (now : ℚ) :
    (update_weights w s).weights = w ∧
    update_weights w s = { s with weights := w } ∧
    (generate_signal symbol now (update_weights w s)).breakdown.delta_contribution =
      w.delta_weight * ratClip (calculate_delta_metrics 1000 now s).normalized_delta := by
  exact ⟨rfl, rfl, rfl⟩

lemma softmax3_mem (x : ℝ) :
    0 ≤ (softmax3 x).1 ∧ (softmax3 x).1 ≤ 1 ∧
    0 ≤ (softmax3 x).2.1 ∧ (softmax3 x).2.1 ≤ 1 ∧
    0 ≤ (softmax3 x).2.2 ∧ (softmax3 x).2.2 ≤ 1 ∧
    (softmax3 x).1 + (softmax3 x).2.1 + (softmax3 x).2.2 = 1 := by
  unfold softmax3
  dsimp only
  have ha := Real.exp_pos x
  have hb := Real.exp_pos (-x)
  have hc := Real.exp_pos 0
  have ht : 0 < Real.exp x + Real.exp (-x) + Real.exp 0 := by linarith
  refine ⟨?_, ?_, ?_, ?_, ?_, ?_, ?_⟩
  · exact le_of_lt (div_pos ha ht)
  · rw [div_le_one ht]; linarith
  · exact le_of_lt (div_pos hb ht)
  · rw [div_le_one ht]; linarith
  · exact le_of_lt (div_pos hc ht)
  · rw [div_le_one ht]; linarith
  · rw [div_add_div_same, div_add_div_same, div_self (ne_of_gt ht)]

lemma chooseSignal_confidence (p q r : ℝ) :
    (chooseSignal p q r).2 =
      (match (chooseSignal p q r).1 with
       | SignalType.buy => p
       | SignalType.sell => q
       | SignalType.no_trade => r) := by
  unfold chooseSignal
  split_ifs <;> rfl

lemma assembleSignal_probabilities (symbol : String) (now : ℚ) (hf : ℝ)
    (bd : SignalBreakdown) (rsn : String) (pr : ℚ) :
    (0 ≤ (assembleSignal symbol now hf bd rsn pr).probability_buy ∧
      (assembleSignal symbol now hf bd rsn pr).probability_buy ≤ 1) ∧
    (0 ≤ (assembleSignal symbol now hf bd rsn pr).probability_sell ∧
      (assembleSignal symbol now hf bd rsn pr).probability_sell ≤ 1) ∧
    (0 ≤ (assembleSignal symbol now hf bd rsn pr).probability_no_trade ∧
      (assembleSignal symbol now hf bd rsn pr).probability_no_trade ≤ 1) ∧
    (assembleSignal symbol now hf bd rsn pr).probability_buy +
      (assembleSignal symbol now hf bd rsn pr).probability_sell +
      (assembleSignal symbol now hf bd rsn pr).probability_no_trade = 1 ∧
    (assembleSignal symbol now hf bd rsn pr).confidence =
      (match (assembleSignal symbol now hf bd rsn pr).signal_type with
       | SignalType.buy => (assembleSignal symbol now hf bd rsn pr).probability_buy
       | SignalType.sell => (assembleSignal symbol now hf bd rsn pr).probability_sell
       | SignalType.no_trade => (assembleSignal symbol now hf bd rsn pr).probability_no_trade) := by
  obtain ⟨h1, h2, h3, h4, h5, h6, h7⟩ := softmax3_mem (hf * 3)
  refine ⟨⟨h1, h2⟩, ⟨h3, h4⟩, ⟨h5, h6⟩, h7, ?_⟩
  exact chooseSignal_confidence (softmax3 (hf * 3)).1 (softmax3 (hf * 3)).2.1
    (softmax3 (hf * 3)).2.2

/-- C2: for every engine state, symbol and clock time, the three
probabilities of the generated signal lie in [0, 1], they sum to 1
exactly (hence to 1 within 1e-9), and the confidence equals the
probability of the returned signal class. -/
theorem c2_signal_probabilities (symbol : String) (now : ℚ) (s : EngineState) :
    (0 ≤ (generate_signal symbol now s).probability_buy ∧
      (generate_signal symbol now s).probability_buy ≤ 1) ∧
    (0 ≤ (generate_signal symbol now s).probability_sell ∧
      (generate_signal symbol now s).probability_sell ≤ 1) ∧
    (0 ≤ (generate_signal symbol now s).probability_no_trade ∧
      (generate_signal symbol now s).probability_no_trade ≤ 1) ∧
    (generate_signal symbol now s).probability_buy +
      (generate_signal symbol now s).probability_sell +
      (generate_signal symbol now s).probability_no_trade = 1 ∧
    |(generate_signal symbol now s).probability_buy +
      (generate_signal symbol now s).probability_sell +
      (generate_signal symbol now s).probability_no_trade - 1| ≤ 1 / 1000000000 ∧
    (generate_signal symbol now s).confidence =
      (match (generate_signal symbol now s).signal_type with
       | SignalType.buy => (generate_signal symbol now s).probability_buy
       | SignalType.sell => (generate_signal symbol now s).probability_sell
       | SignalType.no_trade => (generate_signal symbol now s).probability_no_trade) := by
  have key := assembleSignal_probabilities symbol now
  obtain ⟨hb, hs2, hn, hsum, hconf⟩ := key _ _ _ _
  refine ⟨hb, hs2, hn, hsum, ?_, hconf⟩
  have h9 : (generate_signal symbol now s).probability_buy +
      (generate_signal symbol now s).probability_sell +
      (generate_signal symbol now s).probability_no_trade = 1 := hsum
  rw [h9]
  norm_num

/-! ## C3: where the epsilon convention actually holds -/

/-- Modelled from the spec sentence that demands an additive epsilon
(1e-10) in every denominator: the tape speed as that sentence would have
it, with the epsilon added to the window length. The source divides by
window_ms/1000 alone; the two are compared in the C3 theorems. -/
def tapeSpeedSpec (window_ms now : ℚ) (s : EngineState) : ℚ :=
  ((recent_trades window_ms now s).length : ℚ) / (window_ms / 1000 + EPSILON)

/-- A single buy-aggressor trade: price 100, quantity 1, timestamp 0. -/
def trOne : Trade :=
  { price := 100, quantity := 1, timestamp := 0, is_buyer_maker := false }

/-- The state of a fresh engine after ingesting trOne at clock time 0. -/
def sOne : EngineState :=
  add_trade trOne 0 initialState

/-- C3 counterexample: at the one-trade state the momentum metrics divide
the trade count by window_ms/1000 with no epsilon: the tape speed is
exactly 1 (and the volume velocity exactly 1), while the epsilon form
demanded by the claim gives a different value. -/
theorem c3_counterexample :
    (calculate_momentum_metrics 1000 0 sOne).tape_speed = 1 ∧
    (calculate_momentum_metrics 1000 0 sOne).volume_velocity = 1 ∧
    tapeSpeedSpec 1000 0 sOne ≠ (calculate_momentum_metrics 1000 0 sOne).tape_speed := by
  with_unfolding_all decide

/-- C3 (amended): the delta and OFMBI denominators carry the additive
epsilon, but tape speed divides by window_ms/1000 alone (guarded by
window_ms positive), and the spread-penalty ratio divides by the median
spread alone (guarded by median_spread positive); only its ATR factor
carries the epsilon. -/
theorem c3_amended (window_ms now : ℚ) (s : EngineState) (ob : OrderBook)
    (hw : 0 < window_ms) (hm : 0 < s.median_spread)
    (hob : s.order_books.getLast? = some ob) :
    (calculate_momentum_metrics window_ms now s).tape_speed =
      ((recent_trades window_ms now s).length : ℚ) / (window_ms / 1000) ∧
    (calculate_momentum_metrics window_ms now s).ofmbi =
      (calculate_delta_metrics window_ms now s).normalized_delta *
        (calculate_momentum_metrics window_ms now s).tape_speed / (ob.spread + EPSILON) ∧
    (calculate_delta_metrics window_ms now s).normalized_delta =
      (calculate_delta_metrics window_ms now s).raw_delta /
        ((((recent_trades window_ms now s).filter
            (fun t => !t.is_buyer_maker)).map Trade.quantity).sum +
         (((recent_trades window_ms now s).filter
            (fun t => t.is_buyer_maker)).map Trade.quantity).sum + EPSILON) ∧
    spreadPenalty s =
      min ((ob.spread / s.median_spread) * (get_current_atr s / (s.median_atr + EPSILON))) 1 := by
  refine ⟨?_, ?_, ?_, ?_⟩
  · unfold calculate_momentum_metrics
    dsimp only
    rw [if_pos hw]
  · unfold calculate_momentum_metrics
    dsimp only
    rw [hob]
  · unfold calculate_delta_metrics
    dsimp only
  · unfold spreadPenalty
    rw [hob]
    dsimp only
    rw [if_pos hm]

/-- A book with a positive spread, used to witness C3. -/
def obW : OrderBook :=
  { bids := [], asks := [], spread := 2 }

/-- A state holding one book and a positive median spread, used to
witness C3. -/
def sW : EngineState :=
  { initialState with order_books := [obW], median_spread := 1 }

/-- Witness for C3 (amended) at the state sW. -/
theorem c3_amended_witness :
    (0 : ℚ) < 1000 ∧ 0 < sW.median_spread ∧ sW.order_books.getLast? = some obW ∧
    (calculate_momentum_metrics 1000 0 sW).tape_speed =
      ((recent_trades 1000 0 sW).length : ℚ) / (1000 / 1000) ∧
    spreadPenalty sW =
      min ((obW.spread / sW.median_spread) * (get_current_atr sW / (sW.median_atr + EPSILON))) 1 := by
  have h := c3_amended 1000 0 sW obW (by norm_num) (by with_unfolding_all decide)
    (by with_unfolding_all decide)
  exact ⟨by norm_num, by with_unfolding_all decide, by with_unfolding_all decide,
    h.1, h.2.2.2⟩

/-! ## C7: garbage collection of the two level maps -/

/-- The freshness property the claim asserts for the level-hit map at a
given clock time: every key has a non-empty timestamp list lying
strictly inside the 60-second retention window. -/
def levelHitsFresh (s : EngineState) (now : ℚ) : Prop :=
  ∀ pd ∈ s.level_hits, pd.2.timestamps ≠ [] ∧ ∀ t ∈ pd.2.timestamps, now - 60 < t

instance (s : EngineState) (now : ℚ) : Decidable (levelHitsFresh s now) := by
  unfold levelHitsFresh
  infer_instance

/-- A book quoting the price of trOne on the bid side. -/
def obC7 : OrderBook :=
  { bids := [{ price := 100, quantity := 5 }], asks := [], spread := 0 }

/-- One trade ingested at clock time 0, then one book update; the book
update carries no clock at all, so it cannot prune by time. -/
def sC7 : EngineState :=
  add_order_book obC7 sOne

/-- C7 counterexample: at clock time 120 the trade timestamp 0 is far
outside the 60-second window, yet after the add_order_book mutation the
level-hit entry still holds it (add_order_book never prunes), and the
depth-history key survives any number of later book updates: there is no
time-based garbage collection of the depth map at all. -/
theorem c7_counterexample :
    sC7.level_hits ≠ [] ∧
    ¬ levelHitsFresh sC7 120 ∧
    lookupDepth sC7.level_depth_history 100 ≠ none ∧
    lookupDepth (add_order_book obC7 sC7).level_depth_history 100 ≠ none := by
  with_unfolding_all decide

lemma cleanLevelHits_fresh (m : List (ℚ × LevelData)) (cutoff : ℚ) :
    ∀ pd ∈ cleanLevelHits m cutoff,
      pd.2.timestamps ≠ [] ∧ ∀ t ∈ pd.2.timestamps, cutoff < t := by
  intro pd hpd
  unfold cleanLevelHits at hpd
  simp only [List.mem_filter, List.mem_map] at hpd
  obtain ⟨⟨qd, _, hqd⟩, hne⟩ := hpd
  constructor
  · intro hnil
    rw [hnil] at hne
    simp at hne
  · intro t ht
    rw [← hqd] at ht
    simp only [List.mem_filter, decide_eq_true_eq] at ht
    exact ht.2

lemma updateDepth_len (m : List (ℚ × List ℚ)) (p q : ℚ)
    (hm : ∀ pd ∈ m, pd.2.length ≤ 100) :
    ∀ pd ∈ updateDepth m p q, pd.2.length ≤ 100 := by
  induction m with
  | nil =>
    intro pd hpd
    unfold updateDepth at hpd
    simp only [List.mem_singleton] at hpd
    subst hpd
    simp
  | cons hd tl ih =>
    intro pd hpd
    obtain ⟨hp, hl⟩ := hd
    unfold updateDepth at hpd
    by_cases hq : hp = p
    · rw [if_pos hq] at hpd
      rcases List.mem_cons.mp hpd with h1 | h2
      · subst h1
        dsimp only
        split
        · next hlen =>
          simp only [List.length_drop]
          omega
        · next hlen => omega
      · exact hm pd (List.mem_cons_of_mem _ h2)
    · rw [if_neg hq] at hpd
      rcases List.mem_cons.mp hpd with h1 | h2
      · subst h1
        exact hm (hp, hl) (List.mem_cons_self _ _)
      · exact ih (fun qd hqd => hm qd (List.mem_cons_of_mem _ hqd)) pd h2

lemma foldl_updateDepth_len (levels : List OrderBookLevel) (m : List (ℚ × List ℚ))
    (hm : ∀ pd ∈ m, pd.2.length ≤ 100) :
    ∀ pd ∈ levels.foldl
      (fun acc level => updateDepth acc (roundPrice level.price) level.quantity) m,
      pd.2.length ≤ 100 := by
  induction levels generalizing m with
  | nil => exact hm
  | cons hd tl ih =>
    exact ih _ (updateDepth_len m (roundPrice hd.price) hd.quantity hm)

/-- C7 (amended): stale level-hit data is pruned only by add_trade: after
any add_trade at clock time now, every key of the level-hit map has a
non-empty timestamp list lying strictly after now - 60. add_order_book
and add_candle never prune by time; the depth-history map has no
time-based garbage collection and its keys are never removed, only each
per-key series is clipped to its 100 most recent samples. -/
theorem c7_amended (tr : Trade) (now : ℚ) (s : EngineState) (ob : OrderBook)
    (hs : ∀ pd ∈ s.level_depth_history, pd.2.length ≤ 100) :
    levelHitsFresh (add_trade tr now s) now ∧
    ∀ pd ∈ (add_order_book ob s).level_depth_history, pd.2.length ≤ 100 := by
  constructor
  · intro pd hpd
    unfold add_trade at hpd
    dsimp only at hpd
    exact cleanLevelHits_fresh _ _ pd hpd
  · intro pd hpd
    unfold add_order_book at hpd
    dsimp only at hpd
    refine foldl_updateDepth_len _ _ ?_ pd hpd
    intro qd hqd
    split at hqd <;> exact hs qd hqd

/-- Witness for C7 (amended): the fresh engine satisfies the depth bound,
and after one trade at clock 0 the level-hit map is fresh for clock 0. -/
theorem c7_amended_witness :
    (∀ pd ∈ initialState.level_depth_history, pd.2.length ≤ 100) ∧
    levelHitsFresh (add_trade trOne 0 initialState) 0 ∧
    ∀ pd ∈ (add_order_book obC7 initialState).level_depth_history, pd.2.length ≤ 100 := by
  have h := c7_amended trOne 0 initialState obC7 (by with_unfolding_all decide)
  exact ⟨by with_unfolding_all decide, h.1, h.2⟩

/-! ## C5: the BOS branch with fewer than three swing highs -/

/-- A 21-sample price series with exactly two swing highs (40 then 50)
and two swing lows (10 then 11) under the lookback-5 swing rule, hence an
up-trend, whose last price 18 sits below both swing highs. -/
def c5series : List ℚ :=
  [30, 29, 28, 27, 26, 25, 10, 12, 14, 40, 16, 13, 11, 18, 20, 50, 22, 21, 20, 19, 18]

/-- The engine state reached from a fresh engine by ingesting the C5
series as 21 unit trades at clock time 0. -/
def sC5 : EngineState :=
  runEvents (c5series.map (fun p =>
    Event.trade { price := p, quantity := 1, timestamp := 0, is_buyer_maker := false } 0))

/-- C5: evaluation of the code at the failing input. The series yields
exactly the two swing highs 40 and 50 and an up-trend, and the last price
18 is strictly below the maximum 50 of the last swing highs, so the claim
demands bos_detected = false; the code nevertheless reports
bos_detected = true, because with fewer than three swing highs the
chained conditional expression of the source makes the branch condition
the truthiness of the last swing high. -/
theorem c5_bos_truthiness_bug :
    sC5.prices = c5series ∧
    detect_swing_highs c5series = [40, 50] ∧
    detect_swing_lows c5series = [10, 11] ∧
    (calculate_structure_metrics 0 sC5).trend_direction = "up" ∧
    c5series.getLastD 0 < listMax (takeLast 3 (detect_swing_highs c5series)) ∧
    (calculate_structure_metrics 0 sC5).bos_detected = true := by
  with_unfolding_all decide

/-! ## C4: what two consecutive generate_signal calls can differ in -/

lemma delta_clock (t1 t2 : ℚ) (s : EngineState)
    (h : recent_trades 1000 t1 s = recent_trades 1000 t2 s) :
    calculate_delta_metrics 1000 t1 s = calculate_delta_metrics 1000 t2 s := by
  unfold calculate_delta_metrics
  rw [h]

lemma momentum_clock (t1 t2 : ℚ) (s : EngineState)
    (h : recent_trades 1000 t1 s = recent_trades 1000 t2 s) :
    calculate_momentum_metrics 1000 t1 s = calculate_momentum_metrics 1000 t2 s := by
  unfold calculate_momentum_metrics
  rw [delta_clock t1 t2 s h, h]

lemma structure_clock (t1 t2 : ℚ) (s : EngineState)
    (h : recent_trades 1000 t1 s = recent_trades 1000 t2 s) :
    calculate_structure_metrics t1 s = calculate_structure_metrics t2 s := by
  unfold calculate_structure_metrics calculate_trendline_rejection
  rw [delta_clock t1 t2 s h]

/-- C4 counterexample: with one trade ingested at clock 0, the signals of
two consecutive calls at clock 0 and clock 3600 are not identical: the
timestamp fields differ, and the one-second delta window has meanwhile
emptied (raw delta 1 at the first call, 0 at the second). -/
theorem c4_counterexample :
    generate_signal "BTCUSDT" 0 sOne ≠ generate_signal "BTCUSDT" 3600 sOne ∧
    (calculate_delta_metrics 1000 0 sOne).raw_delta = 1 ∧
    (calculate_delta_metrics 1000 3600 sOne).raw_delta = 0 := by
  refine ⟨?_, by with_unfolding_all decide, by with_unfolding_all decide⟩
  intro h
  have ht : (generate_signal "BTCUSDT" 0 sOne).timestamp =
      (generate_signal "BTCUSDT" 3600 sOne).timestamp := by rw [h]
  have h0 : (generate_signal "BTCUSDT" 0 sOne).timestamp = 0 := rfl
  have h1 : (generate_signal "BTCUSDT" 3600 sOne).timestamp = 3600 := rfl
  rw [h0, h1] at ht
  norm_num at ht

/-- C4 (amended): generate_signal mutates nothing and is a deterministic
function of the engine state, the symbol and the clock; the clock enters
only through the one-second trade window and the timestamp field of the
signal. Two consecutive calls whose window contents agree return signals
identical in every field except the timestamp, which is the clock reading
of each call (and the uuid id of the source record is fresh on every
call). -/
theorem c4_amended (symbol : String) (t1 t2 : ℚ) (s : EngineState)
    (h : recent_trades 1000 t1 s = recent_trades 1000 t2 s) :
    (generate_signal symbol t1 s).symbol = (generate_signal symbol t2 s).symbol ∧
    (generate_signal symbol t1 s).signal_type = (generate_signal symbol t2 s).signal_type ∧
    (generate_signal symbol t1 s).hfss_score = (generate_signal symbol t2 s).hfss_score ∧
    (generate_signal symbol t1 s).probability_buy =
      (generate_signal symbol t2 s).probability_buy ∧
    (generate_signal symbol t1 s).probability_sell =
      (generate_signal symbol t2 s).probability_sell ∧
    (generate_signal symbol t1 s).probability_no_trade =
      (generate_signal symbol t2 s).probability_no_trade ∧
    (generate_signal symbol t1 s).confidence = (generate_signal symbol t2 s).confidence ∧
    (generate_signal symbol t1 s).breakdown = (generate_signal symbol t2 s).breakdown ∧
    (generate_signal symbol t1 s).reason = (generate_signal symbol t2 s).reason ∧
    (generate_signal symbol t1 s).price_at_signal =
      (generate_signal symbol t2 s).price_at_signal ∧
    (generate_signal symbol t1 s).timestamp = t1 ∧
    (generate_signal symbol t2 s).timestamp = t2 := by
  have hd := delta_clock t1 t2 s h
  have hm := momentum_clock t1 t2 s h
  have hst := structure_clock t1 t2 s h
  unfold generate_signal
  rw [hd, hm, hst]
  exact ⟨rfl, rfl, rfl, rfl, rfl, rfl, rfl, rfl, rfl, rfl, rfl, rfl⟩

/-- Witness for C4 (amended): the fresh engine has an empty window at
clock 0 and at clock 1, and the two signals agree on the decision. -/
theorem c4_amended_witness :
    recent_trades 1000 0 initialState = recent_trades 1000 1 initialState ∧
    (generate_signal "BTCUSDT" 0 initialState).signal_type =
      (generate_signal "BTCUSDT" 1 initialState).signal_type := by
  have h : recent_trades 1000 0 initialState = recent_trades 1000 1 initialState := by
    with_unfolding_all decide
  exact ⟨h, (c4_amended "BTCUSDT" 0 1 initialState h).2.1⟩

/-! ## C8 and C9: concrete signal evaluations -/

lemma ratClip_zero : ratClip 0 = 0 := by
  unfold ratClip
  rw [max_eq_right (by norm_num : (-1 : ℚ) ≤ 0), min_eq_right (by norm_num : (0 : ℚ) ≤ 1)]

lemma assembleSignal_zero_cases (symbol : String) (now : ℚ) (hf : ℝ)
    (bd : SignalBreakdown) (rsn : String) (pr : ℚ) (h : hf = 0) :
    (assembleSignal symbol now hf bd rsn pr).signal_type = SignalType.no_trade ∧
    (assembleSignal symbol now hf bd rsn pr).probability_buy = 1 / 3 ∧
    (assembleSignal symbol now hf bd rsn pr).probability_sell = 1 / 3 ∧
    (assembleSignal symbol now hf bd rsn pr).probability_no_trade = 1 / 3 ∧
    (assembleSignal symbol now hf bd rsn pr).confidence = 1 / 3 := by
  subst h
  unfold assembleSignal softmax3 chooseSignal
  dsimp only
  have h0 : (0 : ℝ) * 3 = 0 := by norm_num
  rw [h0, neg_zero, Real.exp_zero]
  have h3 : (1 : ℝ) + 1 + 1 = 3 := by norm_num
  rw [h3]
  have hth : (1 : ℝ) / 3 = 1 / 3 := rfl
  have hcond : ¬((9 / 20 : ℝ) < 1 / 3 ∧ (1 : ℝ) / 3 < 1 / 3) := by
    intro hc
    exact absurd hc.2 (by norm_num)
  rw [if_neg hcond, if_neg hcond]
  exact ⟨rfl, rfl, rfl, rfl, rfl⟩

lemma generate_signal_neutral (symbol : String) (now : ℚ) (s : EngineState)
    (hdelta : (calculate_delta_metrics 1000 now s).normalized_delta = 0)
    (habs1 : (calculate_absorption_metrics s).bid_absorption = 0)
    (habs2 : (calculate_absorption_metrics s).ask_absorption = 0)
    (hice : (calculate_iceberg_metrics s).probability = 0)
    (hmom : (calculate_momentum_metrics 1000 now s).ofmbi = 0)
    (hst : (calculate_structure_metrics now s).trend_direction = "neutral")
    (hsp : spreadPenalty s = 0) :
    (generate_signal symbol now s).signal_type = SignalType.no_trade ∧
    (generate_signal symbol now s).probability_buy = 1 / 3 ∧
    (generate_signal symbol now s).probability_sell = 1 / 3 ∧
    (generate_signal symbol now s).probability_no_trade = 1 / 3 ∧
    (generate_signal symbol now s).confidence = 1 / 3 := by
  unfold generate_signal
  dsimp only
  apply assembleSignal_zero_cases
  rw [hdelta, habs1, habs2, hice, hmom, hsp]
  unfold structureFactor
  rw [hst]
  have hne1 : ("neutral" : String) ≠ "up" := by decide
  have hne2 : ("neutral" : String) ≠ "down" := by decide
  rw [if_neg hne1, if_neg hne2]
  rw [ratClip_zero]
  have hz : (0 : ℚ) - 0 = 0 := by norm_num
  have hz2 : (0 : ℚ) / 100 = 0 := by norm_num
  rw [hz, hz2, ratClip_zero]
  push_cast
  ring

/-- A book whose bid and ask sequences are both empty. -/
def emptyBook : OrderBook :=
  { bids := [], asks := [], spread := 0 }

/-- A fresh engine after one empty book and nothing else. -/
def sC8 : EngineState :=
  add_order_book emptyBook initialState

/-- A fresh engine after one trade (clock 0) and one empty book. -/
def sC8x : EngineState :=
  add_order_book emptyBook sOne

/-- C8 counterexample: a state whose latest book is empty but which holds
a trade inside the window. The momentum metrics are not neutral (tape
speed 1), and the iceberg refill and persistence fields are the numpy
mean of an empty list, NaN rather than the neutral 0. -/
theorem c8_counterexample :
    sC8x.order_books.getLast? = some emptyBook ∧
    emptyBook.bids = [] ∧ emptyBook.asks = [] ∧
    (calculate_momentum_metrics 1000 0 sC8x).tape_speed = 1 ∧
    (calculate_iceberg_metrics sC8x).refill_intensity = none ∧
    (calculate_iceberg_metrics sC8x).persistence_score = none := by
  with_unfolding_all decide

/-- C8 (amended): with an empty latest book and an empty trade window
(the state of a fresh engine that received one empty book), absorption
and momentum return their all-zero defaults, the iceberg metric returns
probability 0, fill ratio 0 and no detected levels while its
refill_intensity and persistence_score are the NaN mean of an empty list
rather than 0, and generate_signal returns no_trade with confidence equal
to probability_no_trade, both 1/3. -/
theorem c8_amended :
    calculate_absorption_metrics sC8 = {} ∧
    calculate_momentum_metrics 1000 0 sC8 = {} ∧
    (calculate_iceberg_metrics sC8).probability = 0 ∧
    (calculate_iceberg_metrics sC8).fill_to_display_ratio = 0 ∧
    (calculate_iceberg_metrics sC8).detected_levels = [] ∧
    (calculate_iceberg_metrics sC8).refill_intensity = none ∧
    (calculate_iceberg_metrics sC8).persistence_score = none ∧
    (generate_signal "BTCUSDT" 0 sC8).signal_type = SignalType.no_trade ∧
    (generate_signal "BTCUSDT" 0 sC8).probability_no_trade = 1 / 3 ∧
    (generate_signal "BTCUSDT" 0 sC8).confidence =
      (generate_signal "BTCUSDT" 0 sC8).probability_no_trade := by
  have hsig := generate_signal_neutral "BTCUSDT" 0 sC8
    (by with_unfolding_all decide) (by with_unfolding_all decide)
    (by with_unfolding_all decide) rfl (by with_unfolding_all decide)
    (by with_unfolding_all decide) (by with_unfolding_all decide)
  refine ⟨by with_unfolding_all decide, by with_unfolding_all decide, rfl,
    by with_unfolding_all decide, by with_unfolding_all decide,
    by with_unfolding_all decide, by with_unfolding_all decide,
    hsig.1, hsig.2.2.2.1, ?_⟩
  rw [hsig.2.2.2.2, hsig.2.2.2.1]

lemma assembleSignal_buy (symbol : String) (now : ℚ) (hf : ℝ)
    (bd : SignalBreakdown) (rsn : String) (pr : ℚ) (h : (13 / 10 : ℝ) ≤ hf * 3) :
    (assembleSignal symbol now hf bd rsn pr).signal_type = SignalType.buy ∧
    (assembleSignal symbol now hf bd rsn pr).confidence =
      (assembleSignal symbol now hf bd rsn pr).probability_buy ∧
    (9 / 20 : ℝ) < (assembleSignal symbol now hf bd rsn pr).probability_buy := by
  unfold assembleSignal softmax3 chooseSignal
  dsimp only
  have h1 : hf * 3 + 1 ≤ Real.exp (hf * 3) := Real.add_one_le_exp (hf * 3)
  have hex : (23 / 10 : ℝ) ≤ Real.exp (hf * 3) := by linarith
  have hpos : (0 : ℝ) < Real.exp (hf * 3) := Real.exp_pos _
  have hnpos : (0 : ℝ) < Real.exp (-(hf * 3)) := Real.exp_pos _
  have h0 : Real.exp (0 : ℝ) = 1 := Real.exp_zero
  have hneg : Real.exp (-(hf * 3)) ≤ 10 / 23 := by
    rw [Real.exp_neg]
    have hinv : ((10 : ℝ) / 23)⁻¹ ≤ Real.exp (hf * 3) := by
      have h2310 : ((10 : ℝ) / 23)⁻¹ = 23 / 10 := by norm_num
      rw [h2310]
      exact hex
    exact (inv_le_comm₀ hpos (by norm_num)).mpr hinv
  have htot : (0 : ℝ) < Real.exp (hf * 3) + Real.exp (-(hf * 3)) + Real.exp 0 := by
    rw [h0]
    linarith
  have hbuy : (9 / 20 : ℝ) <
      Real.exp (hf * 3) / (Real.exp (hf * 3) + Real.exp (-(hf * 3)) + Real.exp 0) := by
    rw [lt_div_iff₀ htot, h0]
    linarith
  have hlt : Real.exp (-(hf * 3)) < Real.exp (hf * 3) := by
    apply Real.exp_lt_exp.mpr
    linarith
  have hps : Real.exp (-(hf * 3)) / (Real.exp (hf * 3) + Real.exp (-(hf * 3)) + Real.exp 0) <
      Real.exp (hf * 3) / (Real.exp (hf * 3) + Real.exp (-(hf * 3)) + Real.exp 0) :=
    (div_lt_div_iff_of_pos_right htot).mpr hlt
  rw [if_pos ⟨hbuy, hps⟩]
  exact ⟨rfl, rfl, hbuy⟩

lemma generate_signal_buy_of (symbol : String) (now : ℚ) (s : EngineState)
    (hq : (13 / 30 : ℚ) ≤
      s.weights.delta_weight * ratClip (calculate_delta_metrics 1000 now s).normalized_delta +
      s.weights.absorption_weight *
        ratClip ((calculate_absorption_metrics s).bid_absorption -
          (calculate_absorption_metrics s).ask_absorption) +
      s.weights.ofmbi_weight * ratClip ((calculate_momentum_metrics 1000 now s).ofmbi / 100) +
      s.weights.structure_weight * structureFactor (calculate_structure_metrics now s) -
      s.weights.spread_penalty_weight * spreadPenalty s)
    (hice : (calculate_iceberg_metrics s).probability = 0) :
    (generate_signal symbol now s).signal_type = SignalType.buy ∧
    (generate_signal symbol now s).confidence =
      (generate_signal symbol now s).probability_buy ∧
    (9 / 20 : ℝ) < (generate_signal symbol now s).probability_buy := by
  unfold generate_signal
  dsimp only
  apply assembleSignal_buy
  rw [hice]
  simp only [zero_mul, mul_zero, add_zero]
  have hc := (Rat.cast_le (K := ℝ)).mpr hq
  have h13 : (((13 : ℚ) / 30 : ℚ) : ℝ) = 13 / 30 := by norm_num
  rw [h13] at hc
  linarith

/-- C9 counterexample: at the single-trade state the generated signal is
buy, not no_trade: the momentum contribution is large because the spread
falls back to 0.01 with no book and the tape speed is 1. -/
theorem c9_counterexample :
    (generate_signal "BTCUSDT" 0 sOne).signal_type = SignalType.buy ∧
    (generate_signal "BTCUSDT" 0 sOne).signal_type ≠ SignalType.no_trade := by
  have h := generate_signal_buy_of "BTCUSDT" 0 sOne (by with_unfolding_all decide) rfl
  refine ⟨h.1, ?_⟩
  rw [h.1]
  decide

/-- C9 (amended): after the single trade the delta metrics are raw 1,
normalized 1/(1 + eps), cumulative 1, and absorption is neutral, as
claimed; but the momentum contribution is not zero (the spread falls back
to 0.01, the tape speed is 1), so HFSS is about w_delta + w_ofmbi = 0.45
and the signal is buy with confidence = probability_buy > 0.45. -/
theorem c9_amended :
    (calculate_delta_metrics 1000 0 sOne).raw_delta = 1 ∧
    (calculate_delta_metrics 1000 0 sOne).normalized_delta = 1 / (1 + EPSILON) ∧
    (calculate_delta_metrics 1000 0 sOne).cumulative_delta = 1 ∧
    calculate_absorption_metrics sOne = {} ∧
    (calculate_iceberg_metrics sOne).probability = 0 ∧
    (calculate_momentum_metrics 1000 0 sOne).tape_speed = 1 ∧
    (generate_signal "BTCUSDT" 0 sOne).breakdown.momentum_contribution ≠ 0 ∧
    (generate_signal "BTCUSDT" 0 sOne).signal_type = SignalType.buy ∧
    (generate_signal "BTCUSDT" 0 sOne).confidence =
      (generate_signal "BTCUSDT" 0 sOne).probability_buy ∧
    (9 / 20 : ℝ) < (generate_signal "BTCUSDT" 0 sOne).probability_buy := by
  have h := generate_signal_buy_of "BTCUSDT" 0 sOne (by with_unfolding_all decide) rfl
  have hnd : (calculate_delta_metrics 1000 0 sOne).normalized_delta = 1 / (1 + EPSILON) := by
    have hrt : recent_trades 1000 0 sOne = [trOne] := by with_unfolding_all decide
    unfold calculate_delta_metrics
    rw [hrt]
    dsimp only
    norm_num [trOne, List.filter, EPSILON]
  exact ⟨by with_unfolding_all decide, hnd,
    by with_unfolding_all decide, by with_unfolding_all decide, rfl,
    by with_unfolding_all decide, by with_unfolding_all decide,
    h.1, h.2.1, h.2.2⟩

end SignalBot
